import Mathlib

/-!
A shallow embedding of `src/ldrawtweaker.py` (a Python 2 program).

Modelling conventions:
* Python floats are modelled as exact rationals (`ℚ`); the program only
  parses decimal literals and performs ring operations and min/max on them.
  Binary floating-point rounding, `inf` and `nan` tokens are outside the model.
* A text line is taken after the `line.rstrip('\r\n')` of
  `DatFileProcessor.process`, i.e. without its line terminator.
* Tokenisation works on the character list of the line, mirroring
  `line.strip().split()` (split on whitespace runs, no empty tokens).
* File I/O is elided: a run is a function over the list of input lines.
-/

namespace LDrawTweaker

/-- One 3-D point, as the length-3 Python list `coordinates[i*3:i*3+3]`. -/
def Point : Type := Fin 3 → ℚ

instance : DecidableEq Point := by unfold Point; infer_instance

/-- The per-axis `[min, max]` pairs `self.limits` (a list of three 2-lists). -/
def Limits : Type := Fin 3 → ℚ × ℚ

instance : DecidableEq Limits := by unfold Limits; infer_instance

/-! ## Tokenisation: `line.strip().split()` -/

/-- Auxiliary splitter: `acc` holds the characters of the token being read,
in reverse order. -/
def splitWsAux : List Char → List Char → List (List Char)
  | [], acc => if acc.isEmpty then [] else [acc.reverse]
  | c :: rest, acc =>
    if c.isWhitespace then
      if acc.isEmpty then splitWsAux rest [] else acc.reverse :: splitWsAux rest []
    else splitWsAux rest (c :: acc)

/-- Models `line.strip().split()`: the whitespace-separated tokens of a line
(`lineitems` in `DatFileProcessor.process`). -/
def lineTokens (line : String) : List (List Char) := splitWsAux line.data []

/-! ## Python numeric parsing -/

/-- The numeric value of a digit string, most significant digit first. -/
def digitsVal (s : List Char) : ℕ := s.foldl (fun n c => 10 * n + (c.toNat - '0'.toNat)) 0

/-- Models Python `int(token)` on a whitespace-free token: an optional sign
followed by at least one ASCII digit; anything else raises (here: `none`). -/
def parseInt (s : List Char) : Option ℤ :=
  match s with
  | '+' :: rest => if rest ≠ [] ∧ rest.all Char.isDigit then some (digitsVal rest) else none
  | '-' :: rest => if rest ≠ [] ∧ rest.all Char.isDigit then some (-(digitsVal rest : ℤ)) else none
  | _ => if s ≠ [] ∧ s.all Char.isDigit then some (digitsVal s) else none

/-- The power `10^e` for an integer exponent, as a rational. -/
def pow10 (e : ℤ) : ℚ :=
  if 0 ≤ e then ((10 ^ e.toNat : ℕ) : ℚ) else 1 / ((10 ^ (-e).toNat : ℕ) : ℚ)

/-- The value of a decimal mantissa `ip.fp`, provided both digit groups are
valid and at least one digit is present. -/
def mantissaVal (ip fp : List Char) : Option ℚ :=
  if (ip ++ fp) ≠ [] ∧ ip.all Char.isDigit ∧ fp.all Char.isDigit then
    some ((digitsVal ip : ℚ) + (digitsVal fp : ℚ) / ((10 ^ fp.length : ℕ) : ℚ))
  else none

/-- Models Python `float(token)` on a whitespace-free token, restricted to
finite decimal literals: optional sign, a mantissa `digits[.digits]`, `.digits`
or `digits.`, and an optional exponent `(e|E)[sign]digits`. The special tokens
`inf`, `infinity` and `nan` have no rational value and are outside the model. -/
def parseFloat (s : List Char) : Option ℚ :=
  let sgnRest : ℚ × List Char :=
    match s with
    | '+' :: rest => (1, rest)
    | '-' :: rest => (-1, rest)
    | _ => (1, s)
  let mantExp := sgnRest.2.span (fun c => c != 'e' && c != 'E')
  let expVal : Option ℤ :=
    match mantExp.2 with
    | [] => some 0
    | _ :: etoks => parseInt etoks
  let ipFp := mantExp.1.span (fun c => c != '.')
  let mant : Option ℚ :=
    match ipFp.2 with
    | [] => mantissaVal ipFp.1 []
    | _ :: fp => mantissaVal ipFp.1 fp
  match mant, expVal with
  | some m, some e => some (sgnRest.1 * m * pow10 e)
  | _, _ => none

/-- Models `float_or_int` of the source: parses a float and, when the value is within
`1e-8` of an integer, runs a branch whose body is `pass` — so it is exactly
`float` (the integer collapse is commented out in the source). -/
def float_or_int (s : List Char) : Option ℚ := parseFloat s

/-- Models `map(float_or_int, lineitems[2:])`: all coordinate tokens must parse,
one failing token fails the whole list (the `except` around the `map`). -/
def parseCoordinates : List (List Char) → Option (List ℚ)
  | [] => some []
  | t :: ts =>
    match float_or_int t with
    | none => none
    | some v =>
      match parseCoordinates ts with
      | none => none
      | some vs => some (v :: vs)

/-! ## Records and the classifier -/

/-- The classification of one input line, as dispatched by
`DatFileProcessor.process` (lines 110-135): `comment` for line type 0,
`incl` for line type 1, `shape` for a fully parsed line of type 2-5 and
`raw` for everything else. The three text-carrying variants store the
original line unchanged. -/
inductive Record : Type
  | comment (text : String)
  | incl (text : String)
  | shape (linetype : ℤ) (color : ℤ) (coordinates : List ℚ)
  | raw (text : String)
  deriving DecidableEq

/-- The line dispatch of `DatFileProcessor.process`: parse the first token as
an int (failure → raw), then branch on 0 / 1 / 2..5 / other; for a shape line
parse `lineitems[1]` as the color (a missing or unparseable token → raw) and
all remaining tokens as floats (any failure → raw). -/
def classify (line : String) : Record :=
  match lineTokens line with
  | [] => .raw line
  | t0 :: rest =>
    match parseInt t0 with
    | none => .raw line
    | some linetype =>
      if linetype = 0 then .comment line
      else if linetype = 1 then .incl line
      else if 2 ≤ linetype ∧ linetype ≤ 5 then
        match rest with
        | [] => .raw line
        | ct :: coordToks =>
          match parseInt ct with
          | none => .raw line
          | some color =>
            match parseCoordinates coordToks with
            | none => .raw line
            | some coords => .shape linetype color coords
      else .raw line

/-- The linetype of a Shape record, `none` for the other variants. -/
def shapeKind : Record → Option ℤ
  | .shape linetype _ _ => some linetype
  | _ => none

/-- True for the variants that are emitted as their stored original text. -/
def passthrough : Record → Bool
  | .comment _ => true
  | .incl _ => true
  | .raw _ => true
  | .shape _ _ _ => false

/-! ## The per-linetype counter -/

/-- The result of `int(lineitems[0])` of a line, when it succeeds. -/
def firstIntToken (line : String) : Option ℤ :=
  match lineTokens line with
  | [] => none
  | t0 :: _ => parseInt t0

/-- One step of `self.counter[linetype] += 1` (line 121): the counter is
bumped exactly when the first token parses as an int, before any attempt to
parse the rest of a shape line. -/
def stepCounter (c : ℤ → ℕ) (line : String) : ℤ → ℕ :=
  match firstIntToken line with
  | none => c
  | some k => fun j => if j = k then c j + 1 else c j

/-- The final counter of a run over the input lines (`collections.defaultdict(int)`
starts every key at 0). -/
def runCounter (lines : List String) : ℤ → ℕ :=
  lines.foldl stepCounter (fun _ => 0)

/-! ## Pass 1: the bounding-box accumulator (`StatReaderProcessor`) -/

/-- The slice `coordinates[i:len(coordinates):3]`, given the list already dropped to
position `i`: every third element starting at the head. -/
def stride3 : List ℚ → List ℚ
  | [] => []
  | [a] => [a]
  | [a, _] => [a]
  | a :: _ :: _ :: rest => a :: stride3 rest

/-- One `min`/`max` update of `self.limits[i]` against one coordinate
(lines 149-150): first the min entry, then the max entry. -/
def limitStep (pr : ℚ × ℚ) (c : ℚ) : ℚ × ℚ := (min c pr.1, max c pr.2)

/-- The initial `self.limits`: `sys.maxint` and `-sys.maxint-1` per axis
(64-bit CPython 2). -/
def limitsStart : Limits :=
  fun _ => ((9223372036854775807 : ℚ), (-9223372036854775808 : ℚ))

namespace StatReaderProcessor

/-- Models `StatReaderProcessor.process_shape`: for each axis `i`, fold the
coordinates at positions `i, i+3, i+6, …` into `limits[i]`. -/
def process_shape (L : Limits) (coordinates : List ℚ) : Limits :=
  fun i => (stride3 (coordinates.drop i.val)).foldl limitStep (L i)

end StatReaderProcessor

/-- The limits after pass 1 over the Shape records of the input (the
classifier hands `StatReaderProcessor.process_shape` exactly the parsed
shapes, in input order). -/
def limitsOf (shapes : List (List ℚ)) : Limits :=
  shapes.foldl StatReaderProcessor.process_shape limitsStart

/-! ## The transform operations -/

/-- Rotation matrix `ROT_CW_X` (a tuple of rows). -/
def ROT_CW_X : Fin 3 → Fin 3 → ℚ := ![![1, 0, 0], ![0, 0, 1], ![0, -1, 0]]

/-- Rotation matrix `ROT_CW_Y`. -/
def ROT_CW_Y : Fin 3 → Fin 3 → ℚ := ![![0, 0, -1], ![0, 1, 0], ![1, 0, 0]]

/-- Rotation matrix `ROT_CW_Z`. -/
def ROT_CW_Z : Fin 3 → Fin 3 → ℚ := ![![0, 1, 0], ![-1, 0, 0], ![0, 0, 1]]

/-- Models `vector_rotate(point, matrix)`: the row-vector product
`result[j] = Σᵢ point[i]·matrix[i][j]`, written out as in the source. -/
def vector_rotate (point : Point) (matrix : Fin 3 → Fin 3 → ℚ) : Point :=
  fun j => point 0 * matrix 0 j + point 1 * matrix 1 j + point 2 * matrix 2 j

/-- The already-validated argparse configuration consumed by
`TransformProcessor` (`self.args`). `flip` is a duplicate-free list of axis
indices (`--flip`, empty = absent or empty argument, both falsy in Python);
`swap` is a permutation of the three axes when present (`--swap` rejects
non-permutations); `rotate` is the matrix list built by `--rotate` (empty =
absent or empty, both falsy). -/
structure TransformConfig : Type where
  flip : List (Fin 3)
  norm : Bool
  swap : Option (Fin 3 → Fin 3)
  rotate : List (Fin 3 → Fin 3 → ℚ)
  flipface : Bool

namespace TransformProcessor

/-- Models `donorm`: shift each component down by that axis's stored minimum. -/
def donorm (point : Point) (limits : Limits) : Point :=
  fun i => point i - (limits i).1

/-- Models `doswap`: `[point[axis] for axis in permutation]`. -/
def doswap (point : Point) (permutation : Fin 3 → Fin 3) : Point :=
  fun k => point (permutation k)

/-- Models `doflip`: mirror the components of the listed axes about the box,
`point[i] = limits[i][0] + limits[i][1] - point[i]`. -/
def doflip (point : Point) (flip : List (Fin 3)) (limits : Limits) : Point :=
  fun i => if i ∈ flip then (limits i).1 + (limits i).2 - point i else point i

/-- The per-point body of `TransformProcessor.process_shape` (lines 181-190):
flip, then norm, then swap, then the rotation list, each only when its
option is enabled (Python truthiness: an empty list is as falsy as `None`). -/
def transform_point (cfg : TransformConfig) (limits : Limits) (point : Point) : Point :=
  let p1 := if cfg.flip.isEmpty then point else doflip point cfg.flip limits
  let p2 := if cfg.norm then donorm p1 limits else p1
  let p3 :=
    match cfg.swap with
    | none => p2
    | some permutation => doswap p2 permutation
  if cfg.rotate.isEmpty then p3 else cfg.rotate.foldl vector_rotate p3

/-- The slice `coordinates[i*3:i*3+3]` as a `Point`; for `i < len(coordinates)/3` every
index is in range, so the `getD` default is never consulted. -/
def pointAt (coordinates : List ℚ) (i : ℕ) : Point :=
  fun j => coordinates.getD (i * 3 + j.val) 0

/-- The loop `for i in range(len(coordinates)/3): point = coordinates[i*3:i*3+3]` —
Python 2 `/` on ints truncates, so a trailing remainder of 1 or 2
coordinates is silently dropped. -/
def groupPoints (coordinates : List ℚ) : List Point :=
  (List.range (coordinates.length / 3)).map (pointAt coordinates)

/-- The flattening `[value for point in points for value in point]`. -/
def flattenPoints (points : List Point) : List ℚ :=
  (points.map (fun p => [p 0, p 1, p 2])).flatten

/-- Models `TransformProcessor.process_shape` up to the delegation to the base
serializer: transform each grouped point, reverse the point list when
`--flipface` is set, and flatten back to a coordinate list. -/
def process_shape (cfg : TransformConfig) (limits : Limits) (coordinates : List ℚ) : List ℚ :=
  let points := (groupPoints coordinates).map (transform_point cfg limits)
  let points2 := if cfg.flipface then points.reverse else points
  flattenPoints points2

end TransformProcessor

/-! ## Serialization -/

/-- Fractional digits of a rational in `[0, 1)`, most significant first,
stopping at an exact zero remainder or after `fuel` digits. -/
def fracDigits : ℕ → ℚ → List Char
  | 0, _ => []
  | fuel + 1, q =>
    let q10 := q * 10
    let d : ℤ := ⌊q10⌋
    let c := Char.ofNat ('0'.toNat + d.toNat)
    let r := q10 - (d : ℚ)
    if r = 0 then [c] else c :: fracDigits fuel r

/-- Models Python 2 `str` on a float value: sign, integer part, a decimal
point and the fractional digits, with `".0"` for an integral value. Python 2
`str` prints 12 significant digits and switches to exponent notation for
very large or very small magnitudes; only values whose exact decimal
expansion fits this fixed notation are exercised in this development (all
concrete inputs here are integral). -/
def pyFloatStr (q : ℚ) : String :=
  let sgn := if q < 0 then "-" else ""
  let a := |q|
  let ip : ℕ := (⌊a⌋).toNat
  let fr := a - ((⌊a⌋ : ℤ) : ℚ)
  if fr = 0 then sgn ++ toString ip ++ ".0"
  else sgn ++ toString ip ++ "." ++ String.mk (fracDigits 12 fr)

namespace DatFileProcessor

/-- Models `DatFileProcessor.process_shape` (line 107): the output text
`"{0} {1} ".format(linetype, color) + " ".join(map(str, coordinates))`. -/
def process_shape (linetype color : ℤ) (coordinates : List ℚ) : String :=
  toString linetype ++ " " ++ toString color ++ " " ++
    String.intercalate " " (coordinates.map pyFloatStr)

end DatFileProcessor

/-- Rendering of one classified record as written by the stats-free base
processor: the pass-through variants emit their stored text verbatim
(`process_raw_line` / `process_comment` / `process_include`), a shape is
re-serialized by `DatFileProcessor.process_shape`. -/
def serializeRecord : Record → String
  | .comment text => text
  | .incl text => text
  | .raw text => text
  | .shape linetype color coordinates =>
    DatFileProcessor.process_shape linetype color coordinates

/-- One line of pass 2 (`TransformProcessor.process`): classify, transform a
shape's coordinates against the pass-1 limits, and emit; the pass-through
variants are written unchanged. -/
def transformLine (cfg : TransformConfig) (limits : Limits) (line : String) : String :=
  match classify line with
  | .comment text => text
  | .incl text => text
  | .raw text => text
  | .shape linetype color coordinates =>
    DatFileProcessor.process_shape linetype color
      (TransformProcessor.process_shape cfg limits coordinates)

/-! ## The four operations as named stages (for the fixed-order theorem) -/

/-- One optional stage of the per-point pipeline. -/
inductive TransformOp : Type
  | flipOp
  | normOp
  | swapOp
  | rotateOp
  deriving DecidableEq

/-- The effect of one stage under a given configuration. -/
def applyOp (cfg : TransformConfig) (limits : Limits) (p : Point) : TransformOp → Point
  | .flipOp => TransformProcessor.doflip p cfg.flip limits
  | .normOp => TransformProcessor.donorm p limits
  | .swapOp =>
    match cfg.swap with
    | none => p
    | some permutation => TransformProcessor.doswap p permutation
  | .rotateOp => cfg.rotate.foldl vector_rotate p

/-- The stages a configuration enables, always listed in the source's fixed
order flip, norm, swap, rotate — the configuration record itself carries no
ordering. -/
def enabledOps (cfg : TransformConfig) : List TransformOp :=
  (if cfg.flip.isEmpty then [] else [.flipOp]) ++
    (if cfg.norm then [.normOp] else []) ++
      (if cfg.swap.isSome then [.swapOp] else []) ++
        (if cfg.rotate.isEmpty then [] else [.rotateOp])

/-! ## Theorems -/

section MainTheorems

attribute [local semireducible] Rat.add Rat.sub Rat.mul Rat.inv

/-- C1: for every configuration, the per-point transform of
`TransformProcessor.process_shape` equals folding exactly the enabled
operations in the fixed order flip, normalize, swap, rotate; the
`TransformConfig` record has no option ordering that could influence this. -/
theorem transform_point_fixed_order (cfg : TransformConfig) (limits : Limits) (p : Point) :
    TransformProcessor.transform_point cfg limits p =
      (enabledOps cfg).foldl (applyOp cfg limits) p := by
  rcases cfg with ⟨fl, nr, sw, rot, ff⟩
  cases fl <;> cases nr <;> cases sw <;> cases rot <;>
    simp [TransformProcessor.transform_point, enabledOps, applyOp]

/-- C6: flipping twice with the same axis list and the same limits restores
the point. -/
theorem doflip_involution (p : Point) (flip : List (Fin 3)) (limits : Limits) :
    TransformProcessor.doflip (TransformProcessor.doflip p flip limits) flip limits = p := by
  funext i
  by_cases h : i ∈ flip
  · simp only [TransformProcessor.doflip, if_pos h]
    ring
  · simp only [TransformProcessor.doflip, if_neg h]

/-- C7: four successive 90-degree clockwise rotations about any one of the
three axes (the rotation loop of `process_shape` run on the list
`[M, M, M, M]`) give back every point unchanged. -/
theorem rotate_four_times_identity (p : Point) :
    [ROT_CW_X, ROT_CW_X, ROT_CW_X, ROT_CW_X].foldl vector_rotate p = p ∧
      [ROT_CW_Y, ROT_CW_Y, ROT_CW_Y, ROT_CW_Y].foldl vector_rotate p = p ∧
        [ROT_CW_Z, ROT_CW_Z, ROT_CW_Z, ROT_CW_Z].foldl vector_rotate p = p := by
  refine ⟨?_, ?_, ?_⟩ <;> funext j <;> fin_cases j <;>
    simp [vector_rotate, ROT_CW_X, ROT_CW_Y, ROT_CW_Z, Matrix.vecHead, Matrix.vecTail]

/-- The two `min`/`max` updates of one coordinate commute with those of
another coordinate. -/
theorem limitStep_right_comm (z : ℚ × ℚ) (a b : ℚ) :
    limitStep (limitStep z a) b = limitStep (limitStep z b) a := by
  unfold limitStep
  exact Prod.ext (min_left_comm b a z.1) (max_left_comm b a z.2)

/-- Accumulating two coordinate lists into a limit pair is order-independent. -/
theorem foldl_limitStep_comm (pr : ℚ × ℚ) (l₁ l₂ : List ℚ) :
    l₂.foldl limitStep (l₁.foldl limitStep pr) =
      l₁.foldl limitStep (l₂.foldl limitStep pr) := by
  rw [← List.foldl_append, ← List.foldl_append]
  exact List.perm_append_comm.foldl_eq'
    (fun x _ y _ z => limitStep_right_comm z x y) pr

/-- Lemma: `StatReaderProcessor.process_shape` is right-commutative over shapes. -/
theorem stat_process_shape_comm (L : Limits) (a b : List ℚ) :
    StatReaderProcessor.process_shape (StatReaderProcessor.process_shape L a) b =
      StatReaderProcessor.process_shape (StatReaderProcessor.process_shape L b) a := by
  funext i
  unfold StatReaderProcessor.process_shape
  exact foldl_limitStep_comm (L i) (stride3 (a.drop i.val)) (stride3 (b.drop i.val))

/-- C9: the pass-1 bounding box does not depend on the order of the Shape
records: any permutation of the shape list accumulates to the same per-axis
`[min, max]` limits. -/
theorem limits_perm_invariant (shapes₁ shapes₂ : List (List ℚ))
    (h : shapes₁.Perm shapes₂) : limitsOf shapes₁ = limitsOf shapes₂ :=
  h.foldl_eq' (fun x _ y _ z => stat_process_shape_comm z x y) limitsStart

/-- Witness for C9 at a concrete pair of permuted shape lists. -/
theorem limits_perm_invariant_witness :
    ([[0, 1, 2], [3, 4, 5]] : List (List ℚ)).Perm [[3, 4, 5], [0, 1, 2]] ∧
      limitsOf [[0, 1, 2], [3, 4, 5]] = limitsOf [[3, 4, 5], [0, 1, 2]] :=
  ⟨by decide, limits_perm_invariant [[0, 1, 2], [3, 4, 5]] [[3, 4, 5], [0, 1, 2]] (by decide)⟩

/-- C2: the documented defect, reproduced on the one-shape model
`2 16 0 0 0 1 1 1` with `--norm --rotate x`: the pass-1 box is `[0,1]` on
every axis, normalization keeps every coordinate inside `[0, max-min]`, yet
the rotation applied afterwards produces the output coordinate `-1 < 0`. -/
theorem norm_rotate_defect :
    limitsOf [[0, 0, 0, 1, 1, 1]] = (fun _ => ((0 : ℚ), (1 : ℚ))) ∧
      ((TransformProcessor.groupPoints [0, 0, 0, 1, 1, 1]).map
            (fun p => TransformProcessor.donorm p (limitsOf [[0, 0, 0, 1, 1, 1]]))).all
          (fun p => (List.finRange 3).all
            (fun i => decide ((0 : ℚ) ≤ p i) &&
              decide (p i ≤ (limitsOf [[0, 0, 0, 1, 1, 1]] i).2 -
                (limitsOf [[0, 0, 0, 1, 1, 1]] i).1))) = true ∧
        TransformProcessor.process_shape ⟨[], true, none, [ROT_CW_X], false⟩
            (limitsOf [[0, 0, 0, 1, 1, 1]]) [0, 0, 0, 1, 1, 1] = [0, 0, 0, 1, -1, 1] ∧
          (-1 : ℚ) ∈ TransformProcessor.process_shape ⟨[], true, none, [ROT_CW_X], false⟩
              (limitsOf [[0, 0, 0, 1, 1, 1]]) [0, 0, 0, 1, 1, 1] ∧
            (-1 : ℚ) < 0 := by
  refine ⟨by decide, by decide, by decide, by decide, by decide⟩

/-- Counterexample to C3: the line `2 5 1 2 3 4` classifies as a Shape with
four coordinates (not a multiple of 3); the transform pass emits it as a
re-serialized Shape line with the fourth coordinate dropped — not as the
original Raw text. -/
theorem non_multiple_of_three_counterexample :
    classify "2 5 1 2 3 4" = .shape 2 5 [1, 2, 3, 4] ∧
      ([1, 2, 3, 4] : List ℚ).length % 3 ≠ 0 ∧
        transformLine ⟨[], false, none, [], false⟩ (limitsOf [[1, 2, 3, 4]])
            "2 5 1 2 3 4" = "2 5 1.0 2.0 3.0" ∧
          transformLine ⟨[], false, none, [], false⟩ (limitsOf [[1, 2, 3, 4]])
              "2 5 1 2 3 4" ≠ "2 5 1 2 3 4" := by
  refine ⟨by decide, by decide, by decide, by decide⟩

/-- Flattening triples back to a coordinate list gives three coordinates per
point. -/
theorem flattenPoints_length (points : List Point) :
    (TransformProcessor.flattenPoints points).length = 3 * points.length := by
  induction points with
  | nil => rfl
  | cons p ps ih =>
    show (p 0 :: p 1 :: p 2 :: TransformProcessor.flattenPoints ps).length = _
    simp only [List.length_cons, ih, List.length_cons]
    omega

/-- C3 (amended): a classified shape line whose coordinate count is not a
multiple of 3 is still emitted as a Shape line (never downgraded to Raw and
never a crash), but the Python 2 integer division `len(coordinates)/3`
silently truncates: exactly the complete 3-tuples are transformed and
emitted, strictly fewer coordinates than were parsed. -/
theorem non_multiple_of_three_truncates (cfg : TransformConfig) (limits : Limits)
    (line : String) (linetype color : ℤ) (coordinates : List ℚ)
    (hcl : classify line = .shape linetype color coordinates)
    (hlen : coordinates.length % 3 ≠ 0) :
    transformLine cfg limits line =
      DatFileProcessor.process_shape linetype color
        (TransformProcessor.process_shape cfg limits coordinates) ∧
      (TransformProcessor.process_shape cfg limits coordinates).length =
        3 * (coordinates.length / 3) ∧
        3 * (coordinates.length / 3) < coordinates.length := by
  refine ⟨?_, ?_, ?_⟩
  · unfold transformLine
    rw [hcl]
  · unfold TransformProcessor.process_shape
    by_cases hff : cfg.flipface <;>
      simp [hff, flattenPoints_length, TransformProcessor.groupPoints]
  · omega

/-- Witness for the amended C3 at the concrete line `2 5 1 2 3 4` with every
transform option disabled. -/
theorem non_multiple_of_three_truncates_witness :
    transformLine ⟨[], false, none, [], false⟩ (limitsOf [[1, 2, 3, 4]]) "2 5 1 2 3 4" =
        DatFileProcessor.process_shape 2 5
          (TransformProcessor.process_shape ⟨[], false, none, [], false⟩
            (limitsOf [[1, 2, 3, 4]]) [1, 2, 3, 4]) ∧
      (TransformProcessor.process_shape ⟨[], false, none, [], false⟩
            (limitsOf [[1, 2, 3, 4]]) [1, 2, 3, 4]).length =
          3 * (([1, 2, 3, 4] : List ℚ).length / 3) ∧
        3 * (([1, 2, 3, 4] : List ℚ).length / 3) < ([1, 2, 3, 4] : List ℚ).length :=
  non_multiple_of_three_truncates ⟨[], false, none, [], false⟩ (limitsOf [[1, 2, 3, 4]])
    "2 5 1 2 3 4" 2 5 [1, 2, 3, 4] (by decide) (by decide)

/-- The text stored in a non-shape classification is always the original
line. -/
theorem classify_text_eq (line : String) :
    ∀ {t : String},
      (classify line = .comment t → t = line) ∧
        (classify line = .incl t → t = line) ∧ (classify line = .raw t → t = line) := by
  intro t
  unfold classify
  refine ⟨?_, ?_, ?_⟩ <;> intro h <;> (repeat' split at h) <;> simp_all

/-- C5: a line classified as Comment, Include or Raw serializes back to the
original line exactly. -/
theorem passthrough_roundtrip (line : String)
    (h : passthrough (classify line) = true) :
    serializeRecord (classify line) = line := by
  cases hc : classify line with
  | comment t => exact (classify_text_eq line).1 hc
  | incl t => exact (classify_text_eq line).2.1 hc
  | raw t => exact (classify_text_eq line).2.2 hc
  | shape linetype color coordinates => rw [hc] at h; simp [passthrough] at h

/-- Witness for C5 on a comment, an include and a malformed (raw) line. -/
theorem passthrough_roundtrip_witness :
    passthrough (classify "0 BFC CERTIFY CCW") = true ∧
      serializeRecord (classify "0 BFC CERTIFY CCW") = "0 BFC CERTIFY CCW" :=
  ⟨by decide, passthrough_roundtrip "0 BFC CERTIFY CCW" (by decide)⟩

/-- One failing coordinate token fails the whole coordinate parse. -/
theorem parseCoordinates_eq_none {toks : List (List Char)} {tok : List Char}
    (hmem : tok ∈ toks) (hfail : float_or_int tok = none) :
    parseCoordinates toks = none := by
  induction toks with
  | nil => cases hmem
  | cons t ts ih =>
    rcases List.mem_cons.mp hmem with rfl | hmem2
    · simp [parseCoordinates, hfail]
    · cases h : float_or_int t
      · simp [parseCoordinates, h]
      · simp [parseCoordinates, h, ih hmem2]

/-- C4: a line whose first token is an integer in `[2, 5]` but whose color
token or some coordinate token does not parse is classified Raw, and pass 2
emits the original line verbatim (the run never aborts on such a line). -/
theorem malformed_shape_line_raw (line : String) (t0 ct : List Char)
    (coordToks : List (List Char)) (k : ℤ) (cfg : TransformConfig) (limits : Limits)
    (htok : lineTokens line = t0 :: ct :: coordToks)
    (hk : parseInt t0 = some k) (h2 : 2 ≤ k) (h5 : k ≤ 5)
    (hbad : parseInt ct = none ∨ ∃ tok ∈ coordToks, float_or_int tok = none) :
    classify line = .raw line ∧ transformLine cfg limits line = line := by
  have hk0 : ¬k = 0 := by omega
  have hk1 : ¬k = 1 := by omega
  have hcl : classify line = .raw line := by
    rcases hbad with hc | ⟨tok, hmem, hfail⟩
    · simp [classify, htok, hk, hk0, hk1, h2, h5, hc]
    · cases hc : parseInt ct
      · simp [classify, htok, hk, hk0, hk1, h2, h5, hc]
      · simp [classify, htok, hk, hk0, hk1, h2, h5, hc,
          parseCoordinates_eq_none hmem hfail]
  refine ⟨hcl, ?_⟩
  unfold transformLine
  rw [hcl]

/-- Witness for C4 at the spec's scenario line `2 5 badtoken 1 2`. -/
theorem malformed_shape_line_raw_witness :
    classify "2 5 badtoken 1 2" = .raw "2 5 badtoken 1 2" ∧
      transformLine ⟨[], false, none, [], false⟩ limitsStart "2 5 badtoken 1 2" =
        "2 5 badtoken 1 2" :=
  malformed_shape_line_raw "2 5 badtoken 1 2" ['2'] ['5']
    [['b', 'a', 'd', 't', 'o', 'k', 'e', 'n'], ['1'], ['2']] 2
    ⟨[], false, none, [], false⟩ limitsStart (by decide) (by decide) (by decide)
    (by decide)
    (Or.inr ⟨['b', 'a', 'd', 't', 'o', 'k', 'e', 'n'], by decide, by decide⟩)

/-- C8: with flip-face enabled the emitted Shape line carries the same kind
and color and the transformed points in reversed order; and the spec's
scenario line `3 16 0.0 0.0 0.0 1.0 0.0 0.0 0.0 1.0 0.0` run with only
`--flipface` produces `3 16 0.0 1.0 0.0 1.0 0.0 0.0 0.0 0.0 0.0`. -/
theorem flipface_reverses (cfg : TransformConfig) (limits : Limits) (line : String)
    (linetype color : ℤ) (coordinates : List ℚ)
    (hff : cfg.flipface = true)
    (hcl : classify line = .shape linetype color coordinates) :
    transformLine cfg limits line =
      DatFileProcessor.process_shape linetype color
        (TransformProcessor.flattenPoints
          (((TransformProcessor.groupPoints coordinates).map
            (TransformProcessor.transform_point cfg limits)).reverse)) ∧
      transformLine ⟨[], false, none, [], true⟩ (limitsOf [[0, 0, 0, 1, 0, 0, 0, 1, 0]])
          "3 16 0.0 0.0 0.0 1.0 0.0 0.0 0.0 1.0 0.0" =
        "3 16 0.0 1.0 0.0 1.0 0.0 0.0 0.0 0.0 0.0" := by
  constructor
  · unfold transformLine
    rw [hcl]
    unfold TransformProcessor.process_shape
    simp [hff]
  · decide

/-- Witness for C8: the flip-face run on the scenario line reverses the
grouped points while keeping kind 3 and color 16. -/
theorem flipface_reverses_witness :
    transformLine ⟨[], false, none, [], true⟩ (limitsOf [[0, 0, 0, 1, 0, 0, 0, 1, 0]])
        "3 16 0.0 0.0 0.0 1.0 0.0 0.0 0.0 1.0 0.0" =
      DatFileProcessor.process_shape 3 16
        (TransformProcessor.flattenPoints
          (((TransformProcessor.groupPoints [0, 0, 0, 1, 0, 0, 0, 1, 0]).map
            (TransformProcessor.transform_point ⟨[], false, none, [], true⟩
              (limitsOf [[0, 0, 0, 1, 0, 0, 0, 1, 0]]))).reverse)) :=
  (flipface_reverses ⟨[], false, none, [], true⟩ (limitsOf [[0, 0, 0, 1, 0, 0, 0, 1, 0]])
      "3 16 0.0 0.0 0.0 1.0 0.0 0.0 0.0 1.0 0.0" 3 16 [0, 0, 0, 1, 0, 0, 0, 1, 0] rfl
      (by decide)).1

/-- A successfully classified shape's linetype is its first int token. -/
theorem classify_shape_firstInt {line : String} {k color : ℤ} {co : List ℚ}
    (h : classify line = .shape k color co) : firstIntToken line = some k := by
  unfold classify at h
  unfold firstIntToken
  (repeat' split at h) <;> simp_all

/-- A shape classification of kind `k` implies the first token parses to `k`. -/
theorem shape_imp_first (k : ℤ) (l : String)
    (h : decide (shapeKind (classify l) = some k) = true) :
    decide (firstIntToken l = some k) = true := by
  rw [decide_eq_true_iff] at h ⊢
  cases hc : classify l <;> rw [hc] at h <;> simp [shapeKind] at h
  · rw [← h]
    exact classify_shape_firstInt hc

/-- Filtering with a stronger predicate keeps at most as many elements. -/
theorem length_filter_mono {α : Type} (p q : α → Bool) (l : List α)
    (h : ∀ a, p a = true → q a = true) :
    (l.filter p).length ≤ (l.filter q).length := by
  induction l with
  | nil => simp
  | cons a l ih =>
    simp only [List.filter_cons]
    by_cases hp : p a = true
    · rw [if_pos hp, if_pos (h a hp)]
      simp only [List.length_cons]
      omega
    · rw [if_neg hp]
      by_cases hq : q a = true
      · rw [if_pos hq]
        simp only [List.length_cons]
        omega
      · rw [if_neg hq]
        exact ih

/-- The per-line counter step bumps exactly the key of the parsed first
token. -/
theorem runCounter_aux (lines : List String) :
    ∀ (c : ℤ → ℕ) (k : ℤ),
      lines.foldl stepCounter c k =
        c k + (lines.filter (fun l => decide (firstIntToken l = some k))).length := by
  induction lines with
  | nil => intro c k; simp
  | cons l ls ih =>
    intro c k
    rw [List.foldl_cons, ih]
    cases hf : firstIntToken l with
    | none =>
      have hne : ¬(firstIntToken l = some k) := by simp [hf]
      simp [List.filter_cons, hne, stepCounter, hf]
    | some k2 =>
      by_cases hk : k2 = k
      · subst hk
        have hs : stepCounter c l k2 = c k2 + 1 := by simp [stepCounter, hf]
        have hin : firstIntToken l = some k2 := hf
        simp only [List.filter_cons, hin, decide_eq_true_eq, hs, if_pos]
        simp
        omega
      · have hkk : ¬(k = k2) := fun hh => hk hh.symm
        have hne : ¬(firstIntToken l = some k) := by simp [hf, hkk, hk]
        have hs : stepCounter c l k = c k := by simp [stepCounter, hf, hkk]
        simp [List.filter_cons, hne, hs]

/-- C10: the per-linetype counter counts exactly the lines whose first token
parses as that integer — malformed shape lines of kind 2..5 included, token-
less or unparseable-first-token lines excluded — so the per-kind count can
only be at least the number of successfully parsed Shape records, and on the
input `2 5 badtoken 1 2` it strictly exceeds it (1 counted line, 0 shapes). -/
theorem counter_counts_first_int (lines : List String) (k : ℤ) :
    runCounter lines k =
      (lines.filter (fun l => decide (firstIntToken l = some k))).length ∧
      (lines.filter (fun l => decide (shapeKind (classify l) = some k))).length ≤
        runCounter lines k ∧
      runCounter ["2 5 badtoken 1 2"] 2 = 1 ∧
      (["2 5 badtoken 1 2"].filter
        (fun l => decide (shapeKind (classify l) = some 2))).length = 0 := by
  have h1 : runCounter lines k =
      (lines.filter (fun l => decide (firstIntToken l = some k))).length := by
    unfold runCounter
    rw [runCounter_aux]
    simp
  refine ⟨h1, ?_, by decide, by decide⟩
  rw [h1]
  exact length_filter_mono _ _ lines (shape_imp_first k)

end MainTheorems

end LDrawTweaker
